import Mathlib

/-!
Verification of the browser voice-recorder (`src/script.js`) against its
specification. The script is shallowly embedded: the mutable globals of the
script become fields of `AppState`, each handler function of the script
becomes a state transformer, and the interleaving of user clicks with
platform callbacks (timer ticks, `ondataavailable`, `onstop`) becomes a
`step` function over an explicit `Event` type, single-threaded exactly as
the browser event loop runs the handlers.
-/

/-- State of a `MediaRecorder` object as exposed by the platform
(`mediaRecorder.state` in the script): `inactive`, `recording`, `paused`. -/
inductive MRState where
  | inactive
  | recording
  | paused
deriving DecidableEq

/-- One recording item of the display list (`script.js` lines 153-209).
In the DOM the item is a `div` holding the blob URL (`itemDiv.dataset.url`),
the name span, and an audio element whose source is that URL. `payload`
is the content of the blob the URL addresses (the concatenation performed
by `new Blob(audioChunks)`); `durationMs` records the duration argument
that was handed to `addAudioToDisplay` (the script renders it into the
default name and keeps no other copy). -/
structure Entry where
  url : Nat
  name : String
  payload : List Nat
  durationMs : Nat
deriving DecidableEq

/-- The mutable globals of `script.js` (lines 9-16) together with the
user-visible text nodes the handlers write (`statusMessage`, `timer`),
the display list (`audioList`), and bookkeeping for the blob/URL memory
model: `nextUrl` numbers the URLs minted by `URL.createObjectURL`,
`revoked` records every `URL.revokeObjectURL` call in order, `downloads`
records every download handoff `(url, filename)`, and `uncaughtErrors`
counts platform exceptions (e.g. `MediaRecorder.pause()` on an inactive
recorder) that escape a handler. `pendingStop` is true between
`mediaRecorder.stop()` and the firing of the scheduled `onstop` callback. -/
structure AppState where
  mediaRecorder : Option MRState
  audioChunks : List (List Nat)
  streamActive : Bool
  isRecording : Bool
  isPaused : Bool
  timerRunning : Bool
  startTime : Nat
  timeElapsed : Nat
  timerText : String
  statusMessage : String
  pendingStop : Bool
  audioList : List Entry
  nextUrl : Nat
  revoked : List Nat
  downloads : List (Nat × String)
  uncaughtErrors : Nat
deriving DecidableEq

/-- The initial page state: no recorder, no stream, timer at zero
(`let` declarations of lines 9-16; the initial text content of the two
text nodes comes from the page markup, which is not part of the script;
it is modelled as `"00:00:00"` / `""` and only ever compared after the
script has overwritten it). -/
def init : AppState :=
  { mediaRecorder := none
    audioChunks := []
    streamActive := false
    isRecording := false
    isPaused := false
    timerRunning := false
    startTime := 0
    timeElapsed := 0
    timerText := "00:00:00"
    statusMessage := ""
    pendingStop := false
    audioList := []
    nextUrl := 0
    revoked := []
    downloads := []
    uncaughtErrors := 0 }

/-- JavaScript `String(n).padStart(2, '0')` for a natural number rendered
in decimal: pad on the left with `'0'` up to length 2. -/
def padStart2 (str : String) : String :=
  if str.length < 2 then String.mk (List.replicate (2 - str.length) '0') ++ str
  else str

/-- The `HH:MM:SS` string written into the timer element by the interval
callback of `startTimer` (`script.js` lines 38-42): total seconds is
`floor(timeElapsed / 1000)`, hours `totalSeconds / 3600` (unbounded),
minutes `(totalSeconds % 3600) / 60`, seconds `totalSeconds % 60`,
each through `padStart(2, '0')`. -/
def timerDisplay (elapsedMs : Nat) : String :=
  let totalSeconds := elapsedMs / 1000
  padStart2 (toString (totalSeconds / 3600)) ++ ":" ++
    padStart2 (toString (totalSeconds % 3600 / 60)) ++ ":" ++
    padStart2 (toString (totalSeconds % 60))

/-- Timer display following the specification's words (spec §4.1):
`floor(elapsedMs/1000)` decomposed into hours, minutes and seconds —
hours unbounded, minutes `(totalSeconds / 60) % 60`, seconds
`totalSeconds % 60` — zero-padded and joined as `HH:MM:SS`. -/
def specTimerDisplay (elapsedMs : Nat) : String :=
  let totalSeconds := elapsedMs / 1000
  padStart2 (toString (totalSeconds / 3600)) ++ ":" ++
    padStart2 (toString (totalSeconds / 60 % 60)) ++ ":" ++
    padStart2 (toString (totalSeconds % 60))

/-- Minutes figure of the default entry name: `Math.floor(totalSeconds / 60)`
(`script.js` line 155) — total whole minutes, not reduced modulo 60. -/
def entryMinutes (durationMs : Nat) : Nat :=
  durationMs / 1000 / 60

/-- Seconds figure of the default entry name: `totalSeconds % 60`
(`script.js` line 156). -/
def entrySeconds (durationMs : Nat) : Nat :=
  durationMs / 1000 % 60

/-- The `MM:SS` duration label of the default entry name
(`script.js` lines 154-157), both figures through `padStart(2, '0')`. -/
def durationLabel (durationMs : Nat) : String :=
  padStart2 (toString (entryMinutes durationMs)) ++ ":" ++
    padStart2 (toString (entrySeconds durationMs))

/-- The generated default entry name
`Recording {date} {time} ({minutes}:{seconds})` (`script.js` line 157);
`date` and `time` stand for `toLocaleDateString()` / `toLocaleTimeString()`
of the wall clock, which the embedding takes as parameters. -/
def defaultName (date time : String) (durationMs : Nat) : String :=
  "Recording " ++ date ++ " " ++ time ++ " (" ++ durationLabel durationMs ++ ")"

/-- One character through the regex replacement `/[^a-z0-9]/gi` → `'_'`
of `downloadRecording` (`script.js` line 235): with the `i` flag the class
`[a-z0-9]` matches exactly ASCII `a-z`, `A-Z`, `0-9`; every other
character is replaced by `'_'`. -/
def sanitizeChar (c : Char) : Char :=
  if ('a' ≤ c ∧ c ≤ 'z') ∨ ('A' ≤ c ∧ c ≤ 'Z') ∨ ('0' ≤ c ∧ c ≤ '9') then c
  else '_'

/-- The download filename built by `downloadRecording`
(`script.js` line 235): the sanitized current name plus the fixed
extension `.webm`. -/
def downloadFilename (name : String) : String :=
  String.mk (name.data.map sanitizeChar) ++ ".webm"

/-- Modelled from the spec: the download filename per the specification's
words (spec §4.2) — every character outside `[A-Za-z0-9]` of the current
name replaced with `'_'`, a fixed extension appended. -/
def specSanitizeChar (c : Char) : Char :=
  if ('A' ≤ c ∧ c ≤ 'Z') ∨ ('a' ≤ c ∧ c ≤ 'z') ∨ ('0' ≤ c ∧ c ≤ '9') then c
  else '_'

/-- Modelled from the spec: filename production of `download(entryId)`
as the specification states it (spec §4.2). -/
def specFilename (name : String) : String :=
  String.mk (name.data.map specSanitizeChar) ++ ".webm"

/-- `startTimer` (`script.js` lines 33-36 minus the interval body):
`startTime = Date.now() - timeElapsed` and the interval becomes active.
`now` is the `Date.now()` value at the call. -/
def startTimer (now : Nat) (s : AppState) : AppState :=
  { s with startTime := now - s.timeElapsed, timerRunning := true }

/-- The interval callback registered by `startTimer` (`script.js`
lines 36-43), fired at wall-clock time `now` while the interval is
active: `timeElapsed = Date.now() - startTime`, then the `HH:MM:SS`
rendering is written to the timer element. -/
def timerTick (now : Nat) (s : AppState) : AppState :=
  if s.timerRunning then
    { s with timeElapsed := now - s.startTime
             timerText := timerDisplay (now - s.startTime) }
  else s

/-- `resetTimer` (`script.js` lines 49-54): clear the interval, reset the
display to `00:00:00`, zero `timeElapsed`. -/
def resetTimer (s : AppState) : AppState :=
  { s with timerRunning := false, timerText := "00:00:00", timeElapsed := 0 }

/-- The success path of `startRecording` (`script.js` lines 58-90),
guarded by the record-button listener `if (!isRecording)` (lines 19-23):
acquire the stream, create a recorder and start it, clear `audioChunks`,
set the flags, status text, and start the timer at wall-clock `now`.
The `ondataavailable` / `onstop` registrations become the `Event.dataAvail`
and `Event.finalize` cases of `step`. -/
def startRecordingSuccess (now : Nat) (s : AppState) : AppState :=
  if s.isRecording then s
  else
    startTimer now
      { s with streamActive := true
               mediaRecorder := some MRState.recording
               audioChunks := []
               isRecording := true
               isPaused := false
               statusMessage := "Recording..." }

/-- The failure path of `startRecording` (`script.js` lines 86-90),
same click guard: `getUserMedia` rejected, only the status text changes. -/
def startRecordingFailure (s : AppState) : AppState :=
  if s.isRecording then s
  else { s with statusMessage := "Error: Microphone access denied or not available." }

/-- `togglePauseResume` (`script.js` lines 93-113): return if no recorder
was ever created; otherwise resume when `isPaused` (recorder `.resume()`,
flag cleared, status text, timer restarted at `now` from the preserved
`timeElapsed`) and pause when not (recorder `.pause()`, flag set, status
text, interval cleared). Calling `.pause()` or `.resume()` on an inactive
`MediaRecorder` throws `InvalidStateError`; the handler has no catch, so
the exception aborts the handler before the assignments that follow the
call — modelled by bumping `uncaughtErrors` and changing nothing else. -/
def togglePauseResume (now : Nat) (s : AppState) : AppState :=
  match s.mediaRecorder with
  | none => s
  | some mr =>
    if s.isPaused then
      match mr with
      | MRState.inactive => { s with uncaughtErrors := s.uncaughtErrors + 1 }
      | _ =>
        startTimer now
          { s with mediaRecorder := some MRState.recording
                   isPaused := false
                   statusMessage := "Recording..." }
    else
      match mr with
      | MRState.inactive => { s with uncaughtErrors := s.uncaughtErrors + 1 }
      | _ =>
        { s with mediaRecorder := some MRState.paused
                 isPaused := true
                 statusMessage := "Recording Paused. Tap play to resume."
                 timerRunning := false }

/-- `stopRecording` (`script.js` lines 115-128): if a recorder exists and
is not inactive, `mediaRecorder.stop()` — which synchronously moves the
recorder to `inactive` and schedules the `onstop` callback (`pendingStop`).
Then, unconditionally: status text, timer reset, both flags cleared. -/
def stopRecording (s : AppState) : AppState :=
  let s1 :=
    match s.mediaRecorder with
    | some mr =>
      if mr = MRState.inactive then s
      else { s with mediaRecorder := some MRState.inactive, pendingStop := true }
    | none => s
  resetTimer
    { s1 with statusMessage := "Processing audio..."
              isRecording := false
              isPaused := false }

/-- `addAudioToDisplay` (`script.js` lines 153-209): build the item with
the generated default name and prepend it to the list
(`audioList.prepend(itemDiv)`, line 208). -/
def addAudioToDisplay (audioUrl : Nat) (payload : List Nat) (durationMs : Nat)
    (date time : String) (s : AppState) : AppState :=
  let entry : Entry :=
    { url := audioUrl
      name := defaultName date time durationMs
      payload := payload
      durationMs := durationMs }
  { s with audioList := entry :: s.audioList }

/-- `finishRecording` (`script.js` lines 133-145), the `onstop` callback:
concatenate `audioChunks` into one blob, mint a URL for it, stop the
stream tracks, hand `(audioUrl, timeElapsed)` to the display list, set the
status text. `date`/`time` are the wall-clock strings read inside
`addAudioToDisplay`. -/
def finishRecording (date time : String) (s : AppState) : AppState :=
  let payload := s.audioChunks.flatten
  let s1 := { s with streamActive := false, nextUrl := s.nextUrl + 1, pendingStop := false }
  let s2 := addAudioToDisplay s.nextUrl payload s.timeElapsed date time s1
  { s2 with statusMessage := "Ready to record again." }

/-- `renameRecording` (`script.js` lines 211-218) on the entry at list
position `i`: `promptResult` is what `prompt` returned (`none` = cancel);
a non-empty result whose trim is non-empty replaces the name with the
trimmed string, anything else changes nothing. -/
def renameRecording (i : Nat) (promptResult : Option String) (s : AppState) : AppState :=
  match s.audioList.get? i, promptResult with
  | some e, some newName =>
    if newName ≠ "" ∧ newName.trim ≠ "" then
      { s with audioList := s.audioList.set i { e with name := newName.trim } }
    else s
  | _, _ => s

/-- `downloadRecording` (`script.js` lines 229-239) on the entry at list
position `i`: the click handler (line 185) passes the entry's own blob URL
and the current name; an anchor with `download = sanitized-name + ".webm"`
is clicked (the handoff, recorded in `downloads`), and then
`window.URL.revokeObjectURL(url)` is called on that same URL (line 237,
recorded in `revoked`). -/
def downloadRecording (i : Nat) (s : AppState) : AppState :=
  match s.audioList.get? i with
  | none => s
  | some e =>
    { s with downloads := s.downloads ++ [(e.url, downloadFilename e.name)]
             revoked := s.revoked ++ [e.url] }

/-- `deleteRecording` (`script.js` lines 220-227) on the entry at list
position `i`: `confirmed` is the result of the `confirm` dialog; on
confirmation the entry's blob URL is revoked and the item removed from
the list, otherwise nothing happens. -/
def deleteRecording (i : Nat) (confirmed : Bool) (s : AppState) : AppState :=
  match s.audioList.get? i with
  | none => s
  | some e =>
    if confirmed then
      { s with revoked := s.revoked ++ [e.url]
               audioList := s.audioList.eraseIdx i }
    else s

/-- The events of the single-threaded browser event loop: user actions
(record click with its asynchronous acquisition outcome, pause/resume
click, stop click, and the per-item rename/download/delete clicks) and
platform callbacks (timer interval ticks, `ondataavailable` deliveries,
the `onstop` finalize). `now` fields carry `Date.now()`; `date`/`time`
carry the wall-clock strings used for the default name. -/
inductive Event where
  | startOk (now : Nat)
  | startFail
  | dataAvail (frag : List Nat)
  | toggle (now : Nat)
  | stopClick
  | tick (now : Nat)
  | finalize (date time : String)
  | rename (i : Nat) (promptResult : Option String)
  | download (i : Nat)
  | delete (i : Nat) (confirmed : Bool)
deriving DecidableEq

/-- Whether an event is a successful `startRecording` (the only event
that creates a recorder and resets `audioChunks`). -/
def Event.isStart : Event → Bool
  | Event.startOk _ => true
  | _ => false

/-- One step of the event loop: dispatch the event to the handler the
script registers for it. `dataAvail` runs the `ondataavailable` handler
body (line 66-68: push the fragment); `finalize` runs `finishRecording`
only when an `onstop` callback is actually scheduled; `tick` runs the
interval body only while the interval is active. -/
def step (s : AppState) (e : Event) : AppState :=
  match e with
  | Event.startOk now => startRecordingSuccess now s
  | Event.startFail => startRecordingFailure s
  | Event.dataAvail frag => { s with audioChunks := s.audioChunks ++ [frag] }
  | Event.toggle now => togglePauseResume now s
  | Event.stopClick => stopRecording s
  | Event.tick now => timerTick now s
  | Event.finalize date time => if s.pendingStop then finishRecording date time s else s
  | Event.rename i pr => renameRecording i pr s
  | Event.download i => downloadRecording i s
  | Event.delete i c => deleteRecording i c s

/-- Run a sequence of events from a state. -/
def run (s : AppState) (es : List Event) : AppState :=
  es.foldl step s

/-- The fragments delivered by the `ondataavailable` events of a trace,
in delivery order. -/
def deliveredFrags (es : List Event) : List (List Nat) :=
  es.filterMap fun e =>
    match e with
    | Event.dataAvail f => some f
    | _ => none

/-! ## General lemmas about the event loop -/

/-- Character-level agreement of the script's regex replacement with the
specification's character class. -/
theorem sanitizeChar_eq_spec (c : Char) : sanitizeChar c = specSanitizeChar c := by
  unfold sanitizeChar specSanitizeChar
  by_cases h1 : 'a' ≤ c ∧ c ≤ 'z' <;> by_cases h2 : 'A' ≤ c ∧ c ≤ 'Z' <;>
    by_cases h3 : '0' ≤ c ∧ c ≤ '9' <;> simp [h1, h2, h3]

/-- A single step appends to `audioChunks` exactly the fragments the event
delivers, provided the event is not a successful start (which resets the
chunk list). -/
theorem step_audioChunks (s : AppState) (e : Event) (h : e.isStart = false) :
    (step s e).audioChunks = s.audioChunks ++ deliveredFrags [e] := by
  cases e with
  | startOk now => simp [Event.isStart] at h
  | startFail =>
    simp only [step]
    unfold startRecordingFailure
    split <;> simp [deliveredFrags]
  | dataAvail f => simp [step, deliveredFrags]
  | toggle now =>
    simp only [step]
    unfold togglePauseResume startTimer
    rcases s with ⟨mr, ch, sa, ir, ip, tr, st, te, tt, sm, ps, al, nu, rv, dl, ue⟩
    rcases mr with _ | mr
    · simp [deliveredFrags]
    · cases mr <;> cases ip <;> simp [deliveredFrags]
  | stopClick =>
    simp only [step]
    unfold stopRecording resetTimer
    rcases s with ⟨mr, ch, sa, ir, ip, tr, st, te, tt, sm, ps, al, nu, rv, dl, ue⟩
    rcases mr with _ | mr
    · simp [deliveredFrags]
    · cases mr <;> simp [deliveredFrags]
  | tick now =>
    simp only [step]
    unfold timerTick
    split <;> simp [deliveredFrags]
  | finalize d t =>
    simp only [step]
    split
    · simp [finishRecording, addAudioToDisplay, deliveredFrags]
    · simp [deliveredFrags]
  | rename i pr =>
    simp only [step]
    unfold renameRecording
    split
    · split <;> simp [deliveredFrags]
    · simp [deliveredFrags]
  | download i =>
    simp only [step]
    unfold downloadRecording
    split <;> simp [deliveredFrags]
  | delete i c =>
    simp only [step]
    unfold deleteRecording
    split
    · simp [deliveredFrags]
    · split <;> simp [deliveredFrags]

/-- Along any trace without a successful start, the chunk list grows by
exactly the delivered fragments, in delivery order. -/
theorem run_audioChunks (es : List Event) (s : AppState)
    (h : ∀ e ∈ es, e.isStart = false) :
    (run s es).audioChunks = s.audioChunks ++ deliveredFrags es := by
  induction es generalizing s with
  | nil => simp [run, deliveredFrags]
  | cons e es ih =>
    have he : e.isStart = false := h e (List.mem_cons_self e es)
    have hs : ∀ e' ∈ es, e'.isStart = false := fun e' h' => h e' (List.mem_cons_of_mem e h')
    have h1 : run s (e :: es) = run (step s e) es := by simp [run]
    rw [h1, ih (step s e) hs, step_audioChunks s e he]
    cases e <;> simp [deliveredFrags]

/-- Once a recorder has been created, no handler ever sets the variable
back to null. -/
theorem step_mediaRecorder_ne_none (s : AppState) (e : Event)
    (h : s.mediaRecorder ≠ none) : (step s e).mediaRecorder ≠ none := by
  cases e with
  | startOk now =>
    simp only [step]
    unfold startRecordingSuccess startTimer
    split
    · exact h
    · simp
  | startFail =>
    simp only [step]
    unfold startRecordingFailure
    split <;> exact h
  | dataAvail f => exact h
  | toggle now =>
    simp only [step]
    unfold togglePauseResume startTimer
    rcases s with ⟨mr, ch, sa, ir, ip, tr, st, te, tt, sm, ps, al, nu, rv, dl, ue⟩
    rcases mr with _ | mr
    · exact h
    · cases mr <;> cases ip <;> simp
  | stopClick =>
    simp only [step]
    unfold stopRecording resetTimer
    rcases s with ⟨mr, ch, sa, ir, ip, tr, st, te, tt, sm, ps, al, nu, rv, dl, ue⟩
    rcases mr with _ | mr
    · exact h
    · cases mr <;> simp
  | tick now =>
    simp only [step]
    unfold timerTick
    split <;> exact h
  | finalize d t =>
    simp only [step]
    split
    · exact h
    · exact h
  | rename i pr =>
    simp only [step]
    unfold renameRecording
    split
    · split
      · exact h
      · exact h
    · exact h
  | download i =>
    simp only [step]
    unfold downloadRecording
    split
    · exact h
    · exact h
  | delete i c =>
    simp only [step]
    unfold deleteRecording
    split
    · exact h
    · split
      · exact h
      · exact h

/-- No event other than a successful start creates a recorder. -/
theorem step_mediaRecorder_none (s : AppState) (e : Event)
    (h : e.isStart = false) (hn : s.mediaRecorder = none) :
    (step s e).mediaRecorder = none := by
  cases e with
  | startOk now => simp [Event.isStart] at h
  | startFail =>
    simp only [step]
    unfold startRecordingFailure
    split <;> exact hn
  | dataAvail f => exact hn
  | toggle now =>
    simp only [step]
    unfold togglePauseResume
    rcases s with ⟨mr, ch, sa, ir, ip, tr, st, te, tt, sm, ps, al, nu, rv, dl, ue⟩
    cases hn
    rfl
  | stopClick =>
    simp only [step]
    unfold stopRecording resetTimer
    rcases s with ⟨mr, ch, sa, ir, ip, tr, st, te, tt, sm, ps, al, nu, rv, dl, ue⟩
    cases hn
    rfl
  | tick now =>
    simp only [step]
    unfold timerTick
    split <;> exact hn
  | finalize d t =>
    simp only [step]
    split
    · exact hn
    · exact hn
  | rename i pr =>
    simp only [step]
    unfold renameRecording
    split
    · split
      · exact hn
      · exact hn
    · exact hn
  | download i =>
    simp only [step]
    unfold downloadRecording
    split
    · exact hn
    · exact hn
  | delete i c =>
    simp only [step]
    unfold deleteRecording
    split
    · exact hn
    · split
      · exact hn
      · exact hn

/-- The auxiliary invariant threaded through traces: while no recorder
exists, the script is not recording (`isRecording` was never set). -/
theorem step_invariant (s : AppState) (e : Event)
    (hP : s.mediaRecorder = none → s.isRecording = false) :
    (step s e).mediaRecorder = none → (step s e).isRecording = false := by
  cases e with
  | startOk now =>
    simp only [step]
    unfold startRecordingSuccess startTimer
    split
    · exact hP
    · simp
  | startFail =>
    simp only [step]
    unfold startRecordingFailure
    split <;> exact hP
  | dataAvail f => exact hP
  | toggle now =>
    simp only [step]
    unfold togglePauseResume startTimer
    rcases s with ⟨mr, ch, sa, ir, ip, tr, st, te, tt, sm, ps, al, nu, rv, dl, ue⟩
    rcases mr with _ | mr
    · exact hP
    · cases mr <;> cases ip <;> simp
  | stopClick =>
    simp only [step]
    unfold stopRecording resetTimer
    rcases s with ⟨mr, ch, sa, ir, ip, tr, st, te, tt, sm, ps, al, nu, rv, dl, ue⟩
    rcases mr with _ | mr
    · intro _; rfl
    · cases mr <;> intro _ <;> rfl
  | tick now =>
    simp only [step]
    unfold timerTick
    split <;> exact hP
  | finalize d t =>
    simp only [step]
    split
    · exact hP
    · exact hP
  | rename i pr =>
    simp only [step]
    unfold renameRecording
    split
    · split
      · exact hP
      · exact hP
    · exact hP
  | download i =>
    simp only [step]
    unfold downloadRecording
    split
    · exact hP
    · exact hP
  | delete i c =>
    simp only [step]
    unfold deleteRecording
    split
    · exact hP
    · split
      · exact hP
      · exact hP

/-- Characterization of a null recorder after one step. -/
theorem step_recorder_none_iff (s : AppState) (e : Event)
    (hP : s.mediaRecorder = none → s.isRecording = false) :
    ((step s e).mediaRecorder = none ↔ s.mediaRecorder = none ∧ e.isStart = false) := by
  constructor
  · intro hh
    by_cases hn : s.mediaRecorder = none
    · refine ⟨hn, ?_⟩
      by_contra hb
      cases e with
      | startOk now =>
        have hr : s.isRecording = false := hP hn
        simp [step, startRecordingSuccess, hr, startTimer] at hh
      | startFail => simp [Event.isStart] at hb
      | dataAvail f => simp [Event.isStart] at hb
      | toggle now => simp [Event.isStart] at hb
      | stopClick => simp [Event.isStart] at hb
      | tick now => simp [Event.isStart] at hb
      | finalize d t => simp [Event.isStart] at hb
      | rename i pr => simp [Event.isStart] at hb
      | download i => simp [Event.isStart] at hb
      | delete i c => simp [Event.isStart] at hb
    · exact absurd hh (step_mediaRecorder_ne_none s e hn)
  · rintro ⟨hn, hf⟩
    exact step_mediaRecorder_none s e hf hn

/-- Along any trace, the recorder variable is null exactly when it was
null at the start and no successful start occurred. -/
theorem run_recorder_none_iff (es : List Event) (s : AppState)
    (hP : s.mediaRecorder = none → s.isRecording = false) :
    ((run s es).mediaRecorder = none ↔
      s.mediaRecorder = none ∧ ∀ e ∈ es, e.isStart = false) := by
  induction es generalizing s with
  | nil => simp [run]
  | cons e es ih =>
    have h1 : run s (e :: es) = run (step s e) es := by simp [run]
    rw [h1, ih (step s e) (step_invariant s e hP), step_recorder_none_iff s e hP]
    simp only [List.mem_cons]
    constructor
    · rintro ⟨⟨hn, hf⟩, hrest⟩
      exact ⟨hn, fun e' h' => h'.elim (fun hq => hq ▸ hf) (hrest e')⟩
    · rintro ⟨hn, hall⟩
      exact ⟨⟨hn, hall e (Or.inl rfl)⟩, fun e' h' => hall e' (Or.inr h')⟩

/-! ## Claims -/

/-- C1: what elapsed duration is handed to the registry at finalize. The
claim says the entry's `durationMs` equals the `elapsedMs` accumulated while
the session was Recording, captured at finish time. In the code,
`stopRecording` runs `resetTimer()` — which zeroes `timeElapsed` — before
the asynchronous `onstop` callback `finishRecording` reads `timeElapsed`,
so the registry always receives 0: after recording for 2000 ms the finished
entry carries `durationMs = 0` and the default name shows `(00:00)`. -/
theorem c1_registry_gets_zero_duration :
    (run init [Event.startOk 0, Event.tick 2000]).timeElapsed = 2000 ∧
    (run init [Event.startOk 0, Event.tick 2000, Event.stopClick,
      Event.finalize "1/1/2026" "10:00:00 AM"]).audioList.map Entry.durationMs = [0] ∧
    (run init [Event.startOk 0, Event.tick 2000, Event.stopClick,
      Event.finalize "1/1/2026" "10:00:00 AM"]).audioList.map Entry.name =
      ["Recording 1/1/2026 10:00:00 AM (00:00)"] := by
  decide

set_option maxRecDepth 4000 in
/-- C2: the finished payload is the concatenation of all delivered fragments
in delivery order — none lost or duplicated across any sequence of
pause/resume calls — and the finished entry is inserted at the front of the
registry list; the concrete scenario (fragments of 100 and 200 bytes, pause,
resume, a 50-byte fragment, stop, finalize) yields exactly one new entry at
list position 0 with a 350-byte payload. -/
theorem c2_payload_concat_and_front :
    (∀ (es : List Event) (s : AppState), (∀ e ∈ es, e.isStart = false) →
      (run s es).audioChunks = s.audioChunks ++ deliveredFrags es) ∧
    (∀ (s : AppState) (d t : String), s.pendingStop = true →
      (step s (Event.finalize d t)).audioList =
        { url := s.nextUrl, name := defaultName d t s.timeElapsed,
          payload := s.audioChunks.flatten, durationMs := s.timeElapsed } :: s.audioList) ∧
    ((run init [Event.startOk 0, Event.dataAvail (List.replicate 100 7),
        Event.dataAvail (List.replicate 200 8), Event.toggle 1000, Event.toggle 2000,
        Event.dataAvail (List.replicate 50 9), Event.stopClick,
        Event.finalize "d" "t"]).audioList.map (fun en => en.payload.length) = [350]) := by
  refine ⟨run_audioChunks, ?_, by decide⟩
  intro s d t h
  simp [step, h, finishRecording, addAudioToDisplay]

set_option maxRecDepth 2000 in
/-- Witness for C2: the general conjuncts applied at a concrete trace and a
concrete pending-stop state. -/
theorem c2_payload_concat_and_front_witness :
    ((∀ e ∈ [Event.dataAvail [1, 2], Event.stopClick], e.isStart = false) ∧
      (run init [Event.dataAvail [1, 2], Event.stopClick]).audioChunks =
        init.audioChunks ++ deliveredFrags [Event.dataAvail [1, 2], Event.stopClick]) ∧
    ((run init [Event.startOk 0, Event.dataAvail [1, 2], Event.stopClick]).pendingStop = true ∧
      (step (run init [Event.startOk 0, Event.dataAvail [1, 2], Event.stopClick])
          (Event.finalize "d" "t")).audioList =
        { url := (run init [Event.startOk 0, Event.dataAvail [1, 2], Event.stopClick]).nextUrl,
          name := defaultName "d" "t"
            (run init [Event.startOk 0, Event.dataAvail [1, 2], Event.stopClick]).timeElapsed,
          payload := (run init [Event.startOk 0, Event.dataAvail [1, 2],
            Event.stopClick]).audioChunks.flatten,
          durationMs := (run init [Event.startOk 0, Event.dataAvail [1, 2],
            Event.stopClick]).timeElapsed } ::
          (run init [Event.startOk 0, Event.dataAvail [1, 2], Event.stopClick]).audioList) :=
  ⟨⟨by decide,
    c2_payload_concat_and_front.1 [Event.dataAvail [1, 2], Event.stopClick] init (by decide)⟩,
   ⟨by decide,
    c2_payload_concat_and_front.2.1
      (run init [Event.startOk 0, Event.dataAvail [1, 2], Event.stopClick]) "d" "t" (by decide)⟩⟩

/-- C3: what `download` does to the entry. The claim says download releases
only a transient reference created for the handoff and leaves the entry's
own payload reference valid. In the code `downloadRecording` is handed the
entry's own blob URL and calls `window.URL.revokeObjectURL` on it after the
click — no transient reference exists — so after one download of the sole
entry (URL 0) the list and name are unchanged but the entry's own payload
reference has been revoked. -/
theorem c3_download_revokes_entry_url :
    (step (run init [Event.startOk 0, Event.dataAvail [1, 2, 3], Event.stopClick,
        Event.finalize "d" "t"]) (Event.download 0)).audioList =
      (run init [Event.startOk 0, Event.dataAvail [1, 2, 3], Event.stopClick,
        Event.finalize "d" "t"]).audioList ∧
    (run init [Event.startOk 0, Event.dataAvail [1, 2, 3], Event.stopClick,
      Event.finalize "d" "t"]).audioList.map Entry.url = [0] ∧
    (run init [Event.startOk 0, Event.dataAvail [1, 2, 3], Event.stopClick,
      Event.finalize "d" "t"]).revoked = [] ∧
    (step (run init [Event.startOk 0, Event.dataAvail [1, 2, 3], Event.stopClick,
        Event.finalize "d" "t"]) (Event.download 0)).revoked = [0] := by
  decide

/-- C4 counterexample: a reachable state that is Idle — neither Recording
nor Paused — in which the capture handle is still non-null: after one
finished session `finishRecording` has run and reset the lifecycle to Idle,
yet `mediaRecorder` was never cleared. -/
theorem c4_handle_counterexample :
    (run init [Event.startOk 0, Event.stopClick, Event.finalize "d" "t"]).isRecording = false ∧
    (run init [Event.startOk 0, Event.stopClick, Event.finalize "d" "t"]).isPaused = false ∧
    (run init [Event.startOk 0, Event.stopClick, Event.finalize "d" "t"]).mediaRecorder ≠
      none := by
  decide

/-- C4 (amended): the capture handle, once acquired, is never cleared — in
every reachable state it is null exactly when no successful start has yet
occurred; in particular after finalize returns the state to Idle the handle
remains non-null (the script holds the inactive recorder forever). -/
theorem c4_handle_null_iff_never_started :
    (∀ es : List Event,
      ((run init es).mediaRecorder = none ↔ ∀ e ∈ es, e.isStart = false)) ∧
    (run init [Event.startOk 0, Event.stopClick, Event.finalize "d" "t"]).mediaRecorder =
      some MRState.inactive := by
  constructor
  · intro es
    rw [run_recorder_none_iff es init (fun _ => rfl)]
    simp [init]
  · decide

/-- C5 counterexample: the pause/resume handler is not ignored outside the
Recording state. Calling it while already Paused resumes (the lifecycle
state changes back to Recording), and calling it after a session has ended
— Idle, recorder inactive — invokes the capture handle's pause operation on
the inactive recorder, reaching the platform's error branch. -/
theorem c5_pause_counterexample :
    ((run init [Event.startOk 0, Event.toggle 1000]).isPaused = true ∧
     (step (run init [Event.startOk 0, Event.toggle 1000]) (Event.toggle 2000)).isPaused =
       false ∧
     (step (run init [Event.startOk 0, Event.toggle 1000]) (Event.toggle 2000)).mediaRecorder =
       some MRState.recording) ∧
    ((run init [Event.startOk 0, Event.stopClick]).isRecording = false ∧
     (run init [Event.startOk 0, Event.stopClick]).mediaRecorder = some MRState.inactive ∧
     (step (run init [Event.startOk 0, Event.stopClick]) (Event.toggle 3000)).uncaughtErrors =
       1) := by
  decide

/-- C5 (amended): `togglePauseResume` is ignored only when no capture handle
has ever been acquired; while Paused it acts as resume, moving the lifecycle
back to Recording; after a session has ended (handle present but inactive,
not paused) it does invoke the capture handle's pause operation, whose error
branch on an inactive capture resource is reached and aborts the handler,
leaving everything but the error count unchanged; and no toggle call ever
alters `timeElapsed`. -/
theorem c5_toggle_behavior :
    (∀ (s : AppState) (now : Nat), s.mediaRecorder = none →
      step s (Event.toggle now) = s) ∧
    (∀ (s : AppState) (now : Nat), s.mediaRecorder = some MRState.paused →
      s.isPaused = true →
      (step s (Event.toggle now)).isPaused = false ∧
      (step s (Event.toggle now)).mediaRecorder = some MRState.recording) ∧
    (∀ (s : AppState) (now : Nat), s.mediaRecorder = some MRState.inactive →
      s.isPaused = false →
      step s (Event.toggle now) = { s with uncaughtErrors := s.uncaughtErrors + 1 }) ∧
    (∀ (s : AppState) (now : Nat), (step s (Event.toggle now)).timeElapsed = s.timeElapsed) := by
  refine ⟨?_, ?_, ?_, ?_⟩
  · intro s now h
    simp [step, togglePauseResume, h]
  · intro s now h1 h2
    constructor <;> simp [step, togglePauseResume, h1, h2, startTimer]
  · intro s now h1 h2
    simp [step, togglePauseResume, h1, h2]
  · intro s now
    simp only [step]
    unfold togglePauseResume startTimer
    rcases s with ⟨mr, ch, sa, ir, ip, tr, st, te, tt, sm, ps, al, nu, rv, dl, ue⟩
    rcases mr with _ | mr
    · rfl
    · cases mr <;> cases ip <;> rfl

/-- Witness for C5: each conjunct applied at a concrete reachable state. -/
theorem c5_toggle_behavior_witness :
    (init.mediaRecorder = none ∧ step init (Event.toggle 3) = init) ∧
    ((run init [Event.startOk 0, Event.toggle 5]).mediaRecorder = some MRState.paused ∧
     (run init [Event.startOk 0, Event.toggle 5]).isPaused = true ∧
     (step (run init [Event.startOk 0, Event.toggle 5]) (Event.toggle 7)).isPaused = false ∧
     (step (run init [Event.startOk 0, Event.toggle 5]) (Event.toggle 7)).mediaRecorder =
       some MRState.recording) ∧
    ((run init [Event.startOk 0, Event.stopClick]).mediaRecorder = some MRState.inactive ∧
     (run init [Event.startOk 0, Event.stopClick]).isPaused = false ∧
     step (run init [Event.startOk 0, Event.stopClick]) (Event.toggle 9) =
       { run init [Event.startOk 0, Event.stopClick] with
         uncaughtErrors := (run init [Event.startOk 0, Event.stopClick]).uncaughtErrors + 1 }) :=
  ⟨⟨rfl, c5_toggle_behavior.1 init 3 rfl⟩,
   ⟨by decide, by decide,
    (c5_toggle_behavior.2.1 (run init [Event.startOk 0, Event.toggle 5]) 7
      (by decide) (by decide)).1,
    (c5_toggle_behavior.2.1 (run init [Event.startOk 0, Event.toggle 5]) 7
      (by decide) (by decide)).2⟩,
   ⟨by decide, by decide,
    c5_toggle_behavior.2.2.1 (run init [Event.startOk 0, Event.stopClick]) 9
      (by decide) (by decide)⟩⟩

/-- C6 counterexample: `stop()` in a reachable Idle state does change
observable state — the user-visible status message flips from
`Ready to record again.` back to `Processing audio...`. -/
theorem c6_stop_idle_counterexample :
    (run init [Event.startOk 0, Event.stopClick, Event.finalize "d" "t"]).isRecording = false ∧
    (run init [Event.startOk 0, Event.stopClick, Event.finalize "d" "t"]).statusMessage =
      "Ready to record again." ∧
    (step (run init [Event.startOk 0, Event.stopClick, Event.finalize "d" "t"])
      Event.stopClick).statusMessage = "Processing audio..." := by
  decide

/-- C6 (amended): `stopRecording` is idempotent as a state transformer —
two stop clicks in a row have exactly the effect of one, the second
changing nothing — and a stop click in any Idle-shaped state (not
recording, not paused, timer cleared and zeroed, recorder absent or
inactive) changes nothing except overwriting the status message with
`Processing audio...`. -/
theorem c6_stop_idempotent :
    (∀ s : AppState, step (step s Event.stopClick) Event.stopClick = step s Event.stopClick) ∧
    (∀ s : AppState, s.isRecording = false → s.isPaused = false → s.timerRunning = false →
      s.timeElapsed = 0 → s.timerText = "00:00:00" →
      (s.mediaRecorder = none ∨ s.mediaRecorder = some MRState.inactive) →
      step s Event.stopClick = { s with statusMessage := "Processing audio..." }) := by
  constructor
  · intro s
    show stopRecording (stopRecording s) = stopRecording s
    rcases s with ⟨mr, ch, sa, ir, ip, tr, st, te, tt, sm, ps, al, nu, rv, dl, ue⟩
    rcases mr with _ | mr
    · rfl
    · cases mr <;> rfl
  · rintro ⟨mr, ch, sa, ir, ip, tr, st, te, tt, sm, ps, al, nu, rv, dl, ue⟩ h1 h2 h3 h4 h5 h6
    dsimp only at h1 h2 h3 h4 h5 h6
    subst h1; subst h2; subst h3; subst h4; subst h5
    rcases h6 with h6 | h6 <;> subst h6 <;> rfl

/-- Witness for C6: the Idle-state conjunct applied at the reachable Idle
state that follows one finished session. -/
theorem c6_stop_idempotent_witness :
    ((run init [Event.startOk 0, Event.stopClick, Event.finalize "d" "t"]).isRecording = false ∧
     (run init [Event.startOk 0, Event.stopClick, Event.finalize "d" "t"]).isPaused = false ∧
     (run init [Event.startOk 0, Event.stopClick, Event.finalize "d" "t"]).timerRunning = false ∧
     (run init [Event.startOk 0, Event.stopClick, Event.finalize "d" "t"]).timeElapsed = 0 ∧
     (run init [Event.startOk 0, Event.stopClick, Event.finalize "d" "t"]).timerText =
       "00:00:00") ∧
    step (run init [Event.startOk 0, Event.stopClick, Event.finalize "d" "t"])
      Event.stopClick =
      { run init [Event.startOk 0, Event.stopClick, Event.finalize "d" "t"] with
        statusMessage := "Processing audio..." } :=
  ⟨⟨by decide, by decide, by decide, by decide, by decide⟩,
   c6_stop_idempotent.2 (run init [Event.startOk 0, Event.stopClick, Event.finalize "d" "t"])
     (by decide) (by decide) (by decide) (by decide) (by decide) (by decide)⟩

/-- C7 counterexample: the claim's example output is wrong. The name
`My Recording! #1` has three consecutive non-alphanumeric characters
(`!`, space, `#`) before the final `1`, so per-character replacement yields
three underscores there, not the two of the claimed
`My_Recording__1.webm`. -/
theorem c7_filename_counterexample :
    downloadFilename "My Recording! #1" = "My_Recording___1.webm" ∧
    downloadFilename "My Recording! #1" ≠ "My_Recording__1.webm" := by
  decide

/-- C7 (amended): the download filename is obtained by replacing each
character outside `[A-Za-z0-9]` of the current name with `_` and appending
the fixed extension, and the name `My Recording! #1` produces
`My_Recording___1.webm` (three underscores before the `1`). -/
theorem c7_filename_sanitization :
    (∀ name : String, downloadFilename name = specFilename name) ∧
    downloadFilename "My Recording! #1" = "My_Recording___1.webm" := by
  constructor
  · intro name
    unfold downloadFilename specFilename
    rw [funext sanitizeChar_eq_spec]
  · decide

/-- C8: `deleteRecording` asks for confirmation; on confirmation the
entry's payload reference is revoked exactly once (one new entry in the
revocation log) and the item is removed from the list; declining leaves the
whole state unchanged. -/
theorem c8_delete_behavior :
    (∀ (s : AppState) (i : Nat) (e : Entry), s.audioList.get? i = some e →
      step s (Event.delete i true) =
        { s with audioList := s.audioList.eraseIdx i,
                 revoked := s.revoked ++ [e.url] }) ∧
    (∀ (s : AppState) (i : Nat), step s (Event.delete i false) = s) := by
  constructor
  · intro s i e h
    simp only [step]
    unfold deleteRecording
    rw [h]
    rfl
  · intro s i
    simp only [step]
    unfold deleteRecording
    split
    · rfl
    · simp

/-- Witness for C8: deletion of the one entry of a reachable state. -/
theorem c8_delete_behavior_witness :
    (run init [Event.startOk 0, Event.dataAvail [1], Event.stopClick,
      Event.finalize "d" "t"]).audioList.get? 0 =
      some { url := 0, name := defaultName "d" "t" 0, payload := [1], durationMs := 0 } ∧
    step (run init [Event.startOk 0, Event.dataAvail [1], Event.stopClick,
        Event.finalize "d" "t"]) (Event.delete 0 true) =
      { run init [Event.startOk 0, Event.dataAvail [1], Event.stopClick,
          Event.finalize "d" "t"] with
        audioList := (run init [Event.startOk 0, Event.dataAvail [1], Event.stopClick,
          Event.finalize "d" "t"]).audioList.eraseIdx 0,
        revoked := (run init [Event.startOk 0, Event.dataAvail [1], Event.stopClick,
          Event.finalize "d" "t"]).revoked ++ [0] } :=
  ⟨by decide,
   c8_delete_behavior.1
     (run init [Event.startOk 0, Event.dataAvail [1], Event.stopClick, Event.finalize "d" "t"])
     0 { url := 0, name := defaultName "d" "t" 0, payload := [1], durationMs := 0 }
     (by decide)⟩

/-- C9: the timer display is `floor(elapsedMs/1000)` decomposed into hours,
minutes and seconds, each zero-padded to two digits and joined as
`HH:MM:SS`, with the hours field unbounded — the script's
`(totalSeconds % 3600) / 60` minutes agree with the specification's
`(totalSeconds / 60) % 60` for every input, and the three stated examples
hold, including 25 hours with no modulo-24 rollover. -/
theorem c9_timer_display_format :
    (∀ elapsedMs : Nat, timerDisplay elapsedMs = specTimerDisplay elapsedMs) ∧
    timerDisplay 3725000 = "01:02:05" ∧
    timerDisplay 0 = "00:00:00" ∧
    timerDisplay (3600000 * 25) = "25:00:00" := by
  refine ⟨?_, by decide, by decide, by decide⟩
  intro e
  have h2 : ∀ t : Nat, t % 3600 / 60 = t / 60 % 60 := by
    intro t
    have h3 := Nat.mod_mul_right_div_self t 60 60
    norm_num at h3
    exact h3
  unfold timerDisplay specTimerDisplay
  simp only [h2]

/-- C10: the minutes figure of the default entry name is the total number
of whole minutes of the duration — at one hour or more it is at least 60
and therefore differs from its own modulo-60 reduction, there being no
hours component — so a 61-minute recording is labelled `(61:00)`, unlike
the `01:01:00` of the `HH:MM:SS` timer display. -/
theorem c10_default_name_total_minutes :
    (∀ durationMs : Nat, 3600000 ≤ durationMs →
      60 ≤ entryMinutes durationMs ∧
      entryMinutes durationMs % 60 < entryMinutes durationMs) ∧
    durationLabel 3660000 = "61:00" ∧
    defaultName "1/1/2026" "10:00" 3660000 = "Recording 1/1/2026 10:00 (61:00)" ∧
    timerDisplay 3660000 = "01:01:00" := by
  refine ⟨?_, by decide, by decide, by decide⟩
  intro d h
  have h1 : 60 ≤ entryMinutes d := by
    unfold entryMinutes
    rw [Nat.le_div_iff_mul_le (by norm_num), Nat.le_div_iff_mul_le (by norm_num)]
    omega
  exact ⟨h1, lt_of_lt_of_le (Nat.mod_lt _ (by norm_num)) h1⟩

/-- Witness for C10: the general conjunct applied at a 61-minute duration. -/
theorem c10_default_name_total_minutes_witness :
    3600000 ≤ 3660000 ∧
    (60 ≤ entryMinutes 3660000 ∧ entryMinutes 3660000 % 60 < entryMinutes 3660000) :=
  ⟨by decide, c10_default_name_total_minutes.1 3660000 (by decide)⟩
